import Mathlib

/-!
Verification of the `pulse-feed` heartbeat handler (`src/poller/main.py`).

The handler is:

    def lambda_handler(event, context):
        # placeholder: just proves the schedule -> lambda path works
        return {
            "status": "ok",
            "message": "ingestor heartbeat",
            "time": int(time.time()),
            "event_preview": str(event)[:200]
        }

We embed Python values as a mutually inductive type, model the builtin
stringification `str`/`repr` for those values, model `int(time.time())`
by taking the clock reading as an explicit rational input truncated
toward zero (Python `int()` on a float truncates toward zero), and embed
the handler as the literal association list it returns.
-/

/-- The single-quote character (code point 39), used by the Python `repr`
of strings. -/
def squoteChar : Char := Char.ofNat 39

/-- The double-quote character (code point 34), used by the Python `repr`
of strings that contain a single quote but no double quote. -/
def dquoteChar : Char := Char.ofNat 34

mutual

/-- Shallow embedding of the Python values an invocation event can be
built from: `None`, booleans, integers, strings, lists and
string-keyed dictionaries. -/
inductive PyValue where
  | pnone : PyValue
  | pbool : Bool → PyValue
  | pint : Int → PyValue
  | pstr : String → PyValue
  | plist : PyList → PyValue
  | pdict : PyDict → PyValue

/-- A Python list of `PyValue`s (spelled out so that all functions below
are structurally recursive). -/
inductive PyList where
  | nil : PyList
  | cons : PyValue → PyList → PyList

/-- A Python dict with string keys and `PyValue` values. -/
inductive PyDict where
  | nil : PyDict
  | cons : String → PyValue → PyDict → PyDict

end

/-- Escape a backslash or the chosen quote character, as Python `repr`
does inside a quoted string (escaping of control characters is not
modelled; no claim depends on it). -/
def escapeQuoted (q : Char) (s : String) : String :=
  String.mk (s.data.foldr
    (fun c acc => if c = '\\' ∨ c = q then '\\' :: c :: acc else c :: acc) [])

/-- Python `repr` of a string: single-quoted, except that a string
containing a single quote and no double quote is double-quoted. -/
def strRepr (s : String) : String :=
  let q := if s.data.contains squoteChar ∧ ¬ s.data.contains dquoteChar
    then dquoteChar else squoteChar
  String.mk (q :: (escapeQuoted q s).data ++ [q])

mutual

/-- Python `repr` of an embedded value: `None`, `True`/`False`, the
decimal form of an integer, quoted strings, bracketed lists and braced
dicts with `", "` separators and `": "` between key and value. -/
def pyRepr : PyValue → String
  | .pnone => "None"
  | .pbool true => "True"
  | .pbool false => "False"
  | .pint n => toString n
  | .pstr s => strRepr s
  | .plist xs => "[" ++ pyReprList xs ++ "]"
  | .pdict kvs => "\x7b" ++ pyReprDict kvs ++ "\x7d"

/-- The comma-separated `repr`s of the elements of a list. -/
def pyReprList : PyList → String
  | .nil => ""
  | .cons v .nil => pyRepr v
  | .cons v rest => pyRepr v ++ ", " ++ pyReprList rest

/-- The comma-separated `key: value` entries of a dict, keys and values
shown by `repr`. -/
def pyReprDict : PyDict → String
  | .nil => ""
  | .cons k v .nil => strRepr k ++ ": " ++ pyRepr v
  | .cons k v rest => strRepr k ++ ": " ++ pyRepr v ++ ", " ++ pyReprDict rest

end

/-- Python `str` of an embedded value: the identity on strings, and
`repr` on every other embedded value. -/
def pyStr : PyValue → String
  | .pstr s => s
  | v => pyRepr v

/-- Python slicing `s[:n]` on a string: the first `n` characters. -/
def pySlice (s : String) (n : Nat) : String :=
  String.mk (s.data.take n)

/-- Python `int(x)` on the (real-valued) clock reading, modelled on the
rationals: truncation toward zero. -/
def pyInt (q : ℚ) : Int :=
  Int.tdiv q.num (q.den : Int)

/-- Shallow embedding of `lambda_handler` from `src/poller/main.py`.
The reading of `time.time()` is passed in as the explicit `clock`
argument; the returned dict literal is embedded as the association list
of its entries in source order. -/
def lambda_handler (event context : PyValue) (clock : ℚ) :
    List (String × PyValue) :=
  [ ("status", .pstr "ok"),
    ("message", .pstr "ingestor heartbeat"),
    ("time", .pint (pyInt clock)),
    ("event_preview", .pstr (pySlice (pyStr event) 200)) ]

/-- The body of `lambda_handler` with its only fallible step — the
stringification of `event` — made explicit: `strF` stands for the
runtime `str`, which in Python may raise (e.g. a user `__str__`); every
other step of the body is an infallible literal or arithmetic. -/
def lambda_handlerE (strF : PyValue → Except String String)
    (event context : PyValue) (clock : ℚ) :
    Except String (List (String × PyValue)) :=
  match strF event with
  | .error e => .error e
  | .ok s =>
      .ok [ ("status", .pstr "ok"),
        ("message", .pstr "ingestor heartbeat"),
        ("time", .pint (pyInt clock)),
        ("event_preview", .pstr (pySlice s 200)) ]

/-- State-passing translation of `lambda_handler`: the body performs a
single read of the system clock (`readClock`) and contains no
assignment, no write and no other external call, so the world `w` it
returns is the world it received. -/
def lambda_handlerWorld {σ : Type} (readClock : σ → ℚ)
    (event context : PyValue) (w : σ) :
    (List (String × PyValue)) × σ :=
  (lambda_handler event context (readClock w), w)

/-- Claim C1: for every invocation, with any event, context and clock
reading, the returned record has `status` equal to `"ok"` and `message`
equal to `"ingestor heartbeat"`. -/
theorem heartbeat_status_message_ok (e c : PyValue) (q : ℚ) :
    List.lookup "status" (lambda_handler e c q) = some (.pstr "ok") ∧
    List.lookup "message" (lambda_handler e c q)
      = some (.pstr "ingestor heartbeat") :=
  ⟨rfl, rfl⟩

/-- Claim C2: for every event whose textual representation has at most
200 characters, `event_preview` is that full textual representation. -/
theorem event_preview_short_full (e c : PyValue) (q : ℚ)
    (h : (pyStr e).length ≤ 200) :
    List.lookup "event_preview" (lambda_handler e c q)
      = some (.pstr (pyStr e)) := by
  have h2 : List.take 200 (pyStr e).data = (pyStr e).data :=
    List.take_of_length_le h
  have h3 : pySlice (pyStr e) 200 = pyStr e := by
    simp only [pySlice, h2]
  simp only [lambda_handler, h3]
  rfl

/-- Witness for C2 at the empty-dict event, whose textual form has
length 2. -/
theorem event_preview_short_full_witness :
    (pyStr (.pdict .nil)).length ≤ 200 ∧
    List.lookup "event_preview" (lambda_handler (.pdict .nil) .pnone 0)
      = some (.pstr (pyStr (.pdict .nil))) :=
  ⟨by decide, event_preview_short_full (.pdict .nil) .pnone 0 (by decide)⟩

/-- Claim C3: for every event whose textual representation has more
than 200 characters, `event_preview` is exactly its first 200
characters. -/
theorem event_preview_long_truncated (e c : PyValue) (q : ℚ)
    (h : 200 < (pyStr e).length) :
    List.lookup "event_preview" (lambda_handler e c q)
      = some (.pstr (String.mk ((pyStr e).data.take 200))) :=
  rfl

set_option maxRecDepth 4096 in
/-- Witness for C3 at a 201-character string event. -/
theorem event_preview_long_truncated_witness :
    200 < (pyStr (.pstr (String.mk (List.replicate 201 'a')))).length ∧
    List.lookup "event_preview"
        (lambda_handler (.pstr (String.mk (List.replicate 201 'a'))) .pnone 0)
      = some (.pstr (String.mk
          ((pyStr (.pstr (String.mk (List.replicate 201 'a')))).data.take 200))) :=
  ⟨by decide,
   event_preview_long_truncated (.pstr (String.mk (List.replicate 201 'a')))
     .pnone 0 (by decide)⟩

/-- Claim C4: with the clock reading modelled as the input `q`, the
`time` field of the result is that reading truncated to an integer
(`pyInt`, truncation toward zero, as Python `int()` on a float). -/
theorem time_field_clock_truncated (e c : PyValue) (q : ℚ) :
    List.lookup "time" (lambda_handler e c q) = some (.pint (pyInt q)) :=
  rfl

/-- Claim C5: whenever the stringification of the event succeeds, the
handler returns normally — the error branch of `lambda_handlerE` is
unreachable under that precondition. -/
theorem handler_returns_ok_when_str_ok
    (strF : PyValue → Except String String) (e c : PyValue) (q : ℚ)
    (h : ∃ s, strF e = Except.ok s) :
    ∃ r, lambda_handlerE strF e c q = Except.ok r := by
  obtain ⟨s, hs⟩ := h
  exact ⟨_, by unfold lambda_handlerE; rw [hs]⟩

/-- Witness for C5 with the actual (total) `pyStr` as the
stringification and the empty-dict event. -/
theorem handler_returns_ok_when_str_ok_witness :
    (∃ s, (fun v => (Except.ok (pyStr v) : Except String String))
        (.pdict .nil) = Except.ok s) ∧
    ∃ r, lambda_handlerE (fun v => Except.ok (pyStr v)) (.pdict .nil) .pnone 0
      = Except.ok r :=
  ⟨⟨pyStr (.pdict .nil), rfl⟩,
   handler_returns_ok_when_str_ok (fun v => Except.ok (pyStr v))
     (.pdict .nil) .pnone 0 ⟨pyStr (.pdict .nil), rfl⟩⟩

/-- Claim C6: for every invocation the returned mapping has exactly the
four keys `status`, `message`, `time`, `event_preview`, in source
order, and no others. -/
theorem result_keys_exact (e c : PyValue) (q : ℚ) :
    (lambda_handler e c q).map Prod.fst
      = ["status", "message", "time", "event_preview"] :=
  rfl

/-- Claim C7: the result never depends on the context argument: any two
contexts give equal results for the same event and clock reading. -/
theorem context_independent (e : PyValue) (q : ℚ) (c1 c2 : PyValue) :
    lambda_handler e c1 q = lambda_handler e c2 q :=
  rfl

/-- Claim C8: in the state-passing translation the handler leaves the
world unchanged (no writes, no external calls, no state mutation), each
invocation's result is a function of its own event, context and clock
reading only, and a second invocation run after a first returns exactly
what it returns when run alone — sequentially issued invocations are
independent. -/
theorem handler_side_effect_free_independent {σ : Type}
    (readClock : σ → ℚ) (e1 c1 e2 c2 : PyValue) (w : σ) :
    (lambda_handlerWorld readClock e1 c1 w).2 = w ∧
    (lambda_handlerWorld readClock e1 c1 w).1
      = lambda_handler e1 c1 (readClock w) ∧
    (lambda_handlerWorld readClock e2 c2
        (lambda_handlerWorld readClock e1 c1 w).2).1
      = (lambda_handlerWorld readClock e2 c2 w).1 :=
  ⟨rfl, rfl, rfl⟩

/-- Claim C9: invoking with the empty dict as event yields an
`event_preview` equal to the two-character string rendering an empty
Python dict. -/
theorem empty_dict_event_preview (c : PyValue) (q : ℚ) :
    List.lookup "event_preview" (lambda_handler (.pdict .nil) c q)
      = some (.pstr "\x7b\x7d") :=
  rfl

/-- Claim C10: for a string event, `str` is the identity, so
`event_preview` is the first 200 characters of the string verbatim,
with no quoting or escaping added. -/
theorem string_event_preview_verbatim (s : String) (c : PyValue) (q : ℚ) :
    List.lookup "event_preview" (lambda_handler (.pstr s) c q)
      = some (.pstr (String.mk (s.data.take 200))) :=
  rfl
